import Mathlib

/-!
Verification development for the travel-assistant workflow engine
(`src/main.py` of the repository).

The Python code is shallowly embedded as executable Lean definitions:

* Python string primitives used by the code (`str.strip`, `str.lower`,
  `str.title`, `str.replace` with empty replacement) are modelled on
  `List Char` / `String`; inputs are ASCII so `Char.toLower`-style ASCII
  case mapping matches Python behaviour on the data the program handles.
* The `AgentState` TypedDict becomes a structure; each LangGraph node is a
  function from the state to a partial update (`StateUpdate`), and the
  channel merge rules (`operator.add` for `messages`, last-value for the
  scalar fields) are `applyUpdate`.
* The compiled graph's execution (entry `extract_city`, fixed edges, the
  one conditional edge keyed by `route_based_on_check`, termination after
  `combine_results`) is `runGraph`, written as the sequential composition
  the executor performs.
* Randomness (`random.randint`, `random.choice`) and the clock
  (`datetime.now`) are supplied by an explicit environment `Env`; the
  mock weather API is a function of that environment.
-/

namespace TravelAssistant

/-- Whitespace characters recognised by Python `str.strip()`. -/
def pyWs (c : Char) : Bool :=
  c == ' ' || c == '\t' || c == '\n' || c == '\x0b' || c == '\x0c' || c == '\r'

/-- Python `str.strip()` on a list of characters: drop whitespace from both ends. -/
def pyStripList (l : List Char) : List Char :=
  ((l.dropWhile pyWs).reverse.dropWhile pyWs).reverse

/-- Python `str.strip()`. -/
def pyStrip (s : String) : String := ⟨pyStripList s.data⟩

/-- Python `str.lower()` (ASCII case mapping). -/
def pyLower (s : String) : String := ⟨s.data.map Char.toLower⟩

/-- Helper for `pyTitle`: the Boolean records whether the previous character
was alphabetic. -/
def pyTitleAux : Bool → List Char → List Char
  | _, [] => []
  | prev, c :: cs =>
    (if c.isAlpha then (if prev then c.toLower else c.toUpper) else c)
      :: pyTitleAux c.isAlpha cs

/-- Python `str.title()` (ASCII): uppercase a letter that follows a
non-letter, lowercase the other letters. -/
def pyTitle (s : String) : String := ⟨pyTitleAux false s.data⟩

/-- Boolean test that the first list is a prefix of the second. -/
def isPrefixList : List Char → List Char → Bool
  | [], _ => true
  | _ :: _, [] => false
  | a :: p, b :: s => a == b && isPrefixList p s

/-- Engine of Python `s.replace(pat, "")` for a non-empty pattern
`ph :: pt`: scan left to right, deleting each non-overlapping occurrence.
The `Nat` argument counts pattern characters that remain to be skipped
after a match was found at the current position. -/
def replaceDelAux (ph : Char) (pt : List Char) : Nat → List Char → List Char
  | _, [] => []
  | 0, c :: cs =>
    if isPrefixList (ph :: pt) (c :: cs) then replaceDelAux ph pt pt.length cs
    else c :: replaceDelAux ph pt 0 cs
  | k + 1, _ :: cs => replaceDelAux ph pt k cs

/-- Python `s.replace(ph :: pt, "")`: delete all occurrences of the
(non-empty) pattern, scanning left to right. -/
def replaceDel (ph : Char) (pt : List Char) (s : List Char) : List Char :=
  replaceDelAux ph pt 0 s

/-- The pattern `ph :: pt` occurs somewhere in the list. -/
def occursPat (ph : Char) (pt : List Char) : List Char → Bool
  | [] => false
  | c :: cs => isPrefixList (ph :: pt) (c :: cs) || occursPat ph pt cs

/-- Substring test (`p in s` for strings, as lists of characters). -/
def containsSub (p s : List Char) : Bool :=
  match p with
  | [] => true
  | c :: cs => occursPat c cs s

/-- The four phrase removals of `extract_city_node` (src/main.py lines
204-205), in source order: `.replace("Tell me about", "")`,
`.replace("tell me about", "")`, `.replace("What about", "")`,
`.replace("what about", "")`.  Each `replace` deletes the exact spelling
wherever it occurs in the text. -/
def stripPhrases (l : List Char) : List Char :=
  replaceDel 'w' (("hat about").data)
    (replaceDel 'W' (("hat about").data)
      (replaceDel 't' (("ell me about").data)
        (replaceDel 'T' (("ell me about").data) l)))

/-- One of the four handled phrase spellings occurs in the list. -/
def occursAnyPhrase (l : List Char) : Bool :=
  occursPat 'T' (("ell me about").data) l ||
  occursPat 't' (("ell me about").data) l ||
  occursPat 'W' (("hat about").data) l ||
  occursPat 'w' (("hat about").data) l

/-- The extraction heuristic of `extract_city_node` applied to the message
content: `content.strip()`, the four phrase removals, then `.strip()`
again (src/main.py lines 202-206). -/
def extractList (l : List Char) : List Char :=
  pyStripList (stripPhrases (pyStripList l))

/-- String version of `extractList`. -/
def extractStr (s : String) : String := ⟨extractList s.data⟩

/-- A record of the pre-populated city database (`CityDatabase.__init__`). -/
structure CityRecord where
  name : String
  country : String
  summary : String
  population : String
  timezone : String
deriving DecidableEq

/-- The seeded `self.cities` dict of `CityDatabase`, as an association
list keyed by the lowercase city name. -/
def cityRecords : List (String × CityRecord) :=
  [ ("paris",
     { name := "Paris"
       country := "France"
       summary := "Paris is the capital and most populous city of France. \nKnown for iconic landmarks like the Eiffel Tower, Louvre Museum, Notre-Dame Cathedral, \nand Arc de Triomphe. The city is famous for its art, fashion, gastronomy, and culture. \nIt\x27s often called the \x27City of Light\x27 due to its role in the Age of Enlightenment and \nits early adoption of street lighting. Paris is divided into 20 arrondissements and \nsits along the Seine River."
       population := "2.2 million"
       timezone := "CET (UTC+1)" }),
    ("tokyo",
     { name := "Tokyo"
       country := "Japan"
       summary := "Tokyo is the capital of Japan and the world\x27s most populous \nmetropolitan area. It\x27s a major global financial center and home to cutting-edge technology, \nfashion, and cuisine. The city blends ultramodern skyscrapers with historic temples and \ntraditional gardens. Famous districts include Shibuya, Shinjuku, Harajuku, and Akihabara. \nTokyo hosted the 2020 Summer Olympics and is known for its efficient public transportation, \nsafety, and cleanliness."
       population := "14 million"
       timezone := "JST (UTC+9)" }),
    ("new york",
     { name := "New York"
       country := "United States"
       summary := "New York City is the most populous city in the United States, \nknown as \x27The City That Never Sleeps\x27. It comprises 5 boroughs: Manhattan, Brooklyn, Queens, \nThe Bronx, and Staten Island. Home to iconic landmarks like the Statue of Liberty, Empire \nState Building, Central Park, Times Square, and Broadway. NYC is a global hub for finance, \nmedia, art, fashion, and culture. It\x27s the most linguistically and culturally diverse city \nin the world."
       population := "8.3 million"
       timezone := "EST (UTC-5)" }) ]

/-- Python `dict.get` over the association list. -/
def lookupRecord (k : String) : List (String × CityRecord) → Option CityRecord
  | [] => none
  | (k', v) :: rest => if k' == k then some v else lookupRecord k rest

/-- Python `key in dict` over the association list. -/
def keysContain (k : String) : List (String × CityRecord) → Bool
  | [] => false
  | (k', _) :: rest => k' == k || keysContain k rest

/-- Key normalisation applied by both `CityDatabase.search` and
`CityDatabase.has_city`: `city.lower().strip()`. -/
def normKey (city : String) : String := pyStrip (pyLower city)

/-- `CityDatabase.search`: `self.cities.get(city.lower().strip())`. -/
def cityDbSearch (city : String) : Option CityRecord :=
  lookupRecord (normKey city) cityRecords

/-- `CityDatabase.has_city`: `city.lower().strip() in self.cities`. -/
def cityDbHas (city : String) : Bool :=
  keysContain (normKey city) cityRecords

/-- LangChain message roles used by the agent. -/
inductive Msg where
  | human (content : String)
  | ai (content : String)
  | tool (content : String)

/-- One daily record returned by `mock_weather_api`. -/
structure DailyForecast where
  date : String
  day : String
  temperature : Int
  condition : String
  humidity : Int
  wind_speed : Int

/-- External sources of nondeterminism: the `random` draws and the clock
consumed by `mock_weather_api`, plus the timestamp of the combine node.
`baseTemp` is the one-off `random.randint(15, 25)`; the indexed functions
are the per-day draws inside the loop. -/
structure Env where
  baseTemp : Int
  tempDelta : Nat → Int
  condPick : Nat → Nat
  humidity : Nat → Int
  windSpeed : Nat → Int
  dateStr : Nat → String
  dayName : Nat → String
  timestamp : String

/-- The `conditions` list of `mock_weather_api`. -/
def conditionsList : List String :=
  ["Sunny", "Cloudy", "Rainy", "Partly Cloudy", "Clear"]

/-- The `colors` list of `mock_image_api`. -/
def colorsList : List String :=
  ["FF6B6B", "4ECDC4", "45B7D1", "FFA07A", "98D8C8"]

/-- `mock_weather_api(city, days)`: one record per day in `range(days)`;
the random draws and date strings come from the environment (`city` is
not used by the Python implementation either). -/
def mock_weather_api (env : Env) (city : String) (days : Nat) : List DailyForecast :=
  (List.range days).map fun i =>
    { date := env.dateStr i
      day := env.dayName i
      temperature := env.baseTemp + env.tempDelta i
      condition := conditionsList.getD (env.condPick i % 5) ""
      humidity := env.humidity i
      wind_speed := env.windSpeed i }

/-- `mock_image_api(city, count)`: the placeholder URL f-string for each
`i in range(count)`. -/
def mock_image_api (city : String) (count : Nat) : List String :=
  (List.range count).map fun i =>
    "https://via.placeholder.com/800x600/" ++ colorsList.getD (i % 5) ""
      ++ "/FFFFFF?text=" ++ pyTitle city ++ "+Photo+" ++ toString (i + 1)

/-- `mock_web_search(query)`: the simulated search result f-string. -/
def mock_web_search (query : String) : String :=
  "Based on web search results for \x27" ++ query ++ "\x27:\n    \nThis is a city or location that may be lesser-known but has its own unique characteristics. \nWhile detailed information may be limited, it represents a real place with local culture, \nhistory, and community. For the most accurate and up-to-date information, visitors should \nconsult official tourism websites or local resources.\n\nNote: This is a simulated search result. In production, this would use real web search APIs \nlike Tavily, DuckDuckGo, or Google Custom Search to fetch actual current information."

/-- The `AgentState` TypedDict.  `messages` is the `operator.add` channel;
all other fields are last-value channels.  `city` is a plain string
(initialised to `""`), the remaining fields are optional. -/
structure AgentState where
  messages : List Msg
  city : String
  route : Option String
  city_summary : Option String
  weather_forecast : Option (List DailyForecast)
  image_urls : Option (List String)
  error : Option String
  last_city : Option String
  conversation_context : Option (List (String × String))

/-- A node's partial state update (the dict a node returns).  `none` means
the node did not write the field; no node of this program ever assigns
`None` to an optional field, so one layer of `Option` suffices. -/
structure StateUpdate where
  messages : List Msg := []
  city : Option String := none
  route : Option String := none
  city_summary : Option String := none
  weather_forecast : Option (List DailyForecast) := none
  image_urls : Option (List String) := none
  error : Option String := none
  last_city : Option String := none
  conversation_context : Option (List (String × String)) := none

/-- Last-value channel merge: a written value overwrites, otherwise the
old value is kept. -/
def mergeOpt {α : Type} (new old : Option α) : Option α :=
  match new with
  | some v => some v
  | none => old

/-- Merge a node's partial update into the running state: `messages` is
concatenated (`operator.add`), every other field is overwritten when the
update writes it. -/
def applyUpdate (s : AgentState) (u : StateUpdate) : AgentState where
  messages := s.messages ++ u.messages
  city := match u.city with | some c => c | none => s.city
  route := mergeOpt u.route s.route
  city_summary := mergeOpt u.city_summary s.city_summary
  weather_forecast := mergeOpt u.weather_forecast s.weather_forecast
  image_urls := mergeOpt u.image_urls s.image_urls
  error := mergeOpt u.error s.error
  last_city := mergeOpt u.last_city s.last_city
  conversation_context := mergeOpt u.conversation_context s.conversation_context

/-- Node 1, `extract_city_node`: read the last message; on an empty
`messages` list return an error update, on a human message extract the
city with the string heuristic, otherwise report an invalid format. -/
def extract_city_node (s : AgentState) : StateUpdate :=
  match s.messages.getLast? with
  | none => { error := some ("No message provided") }
  | some (Msg.human content) => { city := some (extractStr content) }
  | some _ => { error := some ("Invalid message format") }

/-- Node 2, `check_database_node`: the routing decision point. -/
def check_database_node (s : AgentState) : StateUpdate :=
  if cityDbHas s.city then { route := some ("database") }
  else { route := some ("web") }

/-- The multi-line summary f-string of `get_from_database_node`. -/
def formatDbSummary (info : CityRecord) : String :=
  "## " ++ info.name ++ ", " ++ info.country ++ "\n\n" ++ info.summary
    ++ "\n\n**Population:** " ++ info.population
    ++ "\n**Timezone:** " ++ info.timezone ++ "\n"

/-- Node 3A, `get_from_database_node`: look the city up; on a hit set the
summary and append a history entry, otherwise set the error field. -/
def get_from_database_node (s : AgentState) : StateUpdate :=
  match cityDbSearch s.city with
  | some info =>
    { city_summary := some (formatDbSummary info)
      messages := [Msg.ai ("Found information about " ++ info.name ++ " in database")] }
  | none => { error := some ("Database lookup failed for " ++ s.city) }

/-- Node 3B, `web_search_node`: wrap the simulated search result into a
summary with a provenance note and append a history entry. -/
def web_search_node (s : AgentState) : StateUpdate :=
  { city_summary := some ("## " ++ s.city ++ "\n\n" ++ mock_web_search s.city
      ++ "\n\n*Information retrieved from web search*\n")
    messages := [Msg.ai ("Searched web for information about " ++ s.city)] }

/-- `fetch_weather_async` (the latency sleep is immaterial to the value). -/
def fetch_weather_async (env : Env) (city : String) : List DailyForecast :=
  mock_weather_api env city 5

/-- `fetch_images_async`. -/
def fetch_images_async (city : String) : List String :=
  mock_image_api city 5

/-- Node 4, `parallel_fetch_node`: both collaborator results plus one
history entry, merged as a single partial update after the join. -/
def parallel_fetch_node (env : Env) (s : AgentState) : StateUpdate :=
  { weather_forecast := some (fetch_weather_async env s.city)
    image_urls := some (fetch_images_async s.city)
    messages := [Msg.ai ("Fetched weather and images for " ++ s.city)] }

/-- The `structured_output` dict built by `combine_results_node`. -/
structure StructuredOutput where
  city : String
  city_summary : String
  weather_forecast : List DailyForecast
  image_urls : List String
  timestamp : String

/-- The fields of the combine node's structured output: each `state.get`
with its default from the source. -/
def structuredOutput (env : Env) (s : AgentState) : StructuredOutput where
  city := s.city
  city_summary := s.city_summary.getD ("No summary available")
  weather_forecast := s.weather_forecast.getD []
  image_urls := s.image_urls.getD []
  timestamp := env.timestamp

/-- Stands for `json.dumps(structured_output)` in the combine node's final
history entry.  The workflow never inspects this content; the caller
parses it back, which `process` models as the identity round-trip. -/
def serializeOutput (o : StructuredOutput) : String :=
  o.city ++ "\n" ++ o.city_summary ++ "\n" ++ toString o.weather_forecast.length
    ++ "\n" ++ String.intercalate ("\n") o.image_urls ++ "\n" ++ o.timestamp

/-- Node 5, `combine_results_node`: append the serialized structured
output as the final history entry and remember `last_city`. -/
def combine_results_node (env : Env) (s : AgentState) : StateUpdate :=
  { messages := [Msg.ai (serializeOutput (structuredOutput env s))]
    last_city := some s.city }

/-- `route_based_on_check`: `state.get("route", "web")`. -/
def route_based_on_check (s : AgentState) : String :=
  s.route.getD ("web")

/-- State after the entry node `extract_city`. -/
def stage1 (s0 : AgentState) : AgentState :=
  applyUpdate s0 (extract_city_node s0)

/-- State after `check_database`. -/
def stage2 (s0 : AgentState) : AgentState :=
  applyUpdate (stage1 s0) (check_database_node (stage1 s0))

/-- State after the conditional branch: the conditional edge maps
`"database"` to `get_from_database` and `"web"` to `web_search`. -/
def stage3 (s0 : AgentState) : AgentState :=
  if route_based_on_check (stage2 s0) = "database" then
    applyUpdate (stage2 s0) (get_from_database_node (stage2 s0))
  else
    applyUpdate (stage2 s0) (web_search_node (stage2 s0))

/-- State after `parallel_fetch` (both branches converge here). -/
def stage4 (env : Env) (s0 : AgentState) : AgentState :=
  applyUpdate (stage3 s0) (parallel_fetch_node env (stage3 s0))

/-- Execution of the compiled graph built by `build_agent_graph`:
`extract_city → check_database → {get_from_database | web_search} →
parallel_fetch → combine_results → END`, merging each node's partial
update into the running state. -/
def runGraph (env : Env) (s0 : AgentState) : AgentState :=
  applyUpdate (stage4 env s0) (combine_results_node env (stage4 env s0))

/-- The initial state built by `TravelAgent.process_async`. -/
def initialState (user_input : String) : AgentState where
  messages := [Msg.human user_input]
  city := ""
  route := none
  city_summary := none
  weather_forecast := none
  image_urls := none
  error := none
  last_city := none
  conversation_context := some []

/-- The dict `TravelAgent.process_async` returns to the caller: the parsed
structured output of the final message (the parse of the dump is the
identity), which carries no `error` key. -/
structure CallerResult where
  city : String
  city_summary : String
  weather_forecast : List DailyForecast
  image_urls : List String
  timestamp : String
  error : Option String

/-- `TravelAgent.process_async(user_input, thread_id)`: run the graph on a
fresh initial state and hand the combine node's structured output back to
the caller.  The thread identifier only keys the checkpoint slot and does
not influence a run from a fresh state. -/
def process (env : Env) (user_input : String) (threadId : String) : CallerResult :=
  let F := stage4 env (initialState user_input)
  let o := structuredOutput env F
  { city := o.city
    city_summary := o.city_summary
    weather_forecast := o.weather_forecast
    image_urls := o.image_urls
    timestamp := o.timestamp
    error := none }

/-- The six nodes registered by `build_agent_graph`. -/
inductive NodeId where
  | extract_city
  | check_database
  | get_from_database
  | web_search
  | parallel_fetch
  | combine_results

/-- The node function attached to each graph node. -/
def nodeUpdate (env : Env) : NodeId → AgentState → StateUpdate
  | NodeId.extract_city => extract_city_node
  | NodeId.check_database => check_database_node
  | NodeId.get_from_database => get_from_database_node
  | NodeId.web_search => web_search_node
  | NodeId.parallel_fetch => parallel_fetch_node env
  | NodeId.combine_results => combine_results_node env

/-- Running one workflow node: merge its partial update into the state. -/
def applyNode (env : Env) (n : NodeId) (s : AgentState) : AgentState :=
  applyUpdate s (nodeUpdate env n s)

/-- Write the weather result into the state (one of the two independent
sub-operations of the fan-out stage). -/
def setWeather (w : List DailyForecast) (s : AgentState) : AgentState :=
  { s with weather_forecast := some w }

/-- Write the gallery result into the state. -/
def setImages (g : List String) (s : AgentState) : AgentState :=
  { s with image_urls := some g }

/-- Append one history entry. -/
def addMessage (m : Msg) (s : AgentState) : AgentState :=
  { s with messages := s.messages ++ [m] }

/-- The fan-out stage with an explicit completion order: both collaborator
calls are issued, their two results are written in the order the
sub-operations complete (`weatherFirst` picks which one lands first), and
the single history entry is appended after the join. -/
def fanOutEither (env : Env) (s : AgentState) (weatherFirst : Bool) : AgentState :=
  let w := fetch_weather_async env s.city
  let g := fetch_images_async s.city
  let s' := if weatherFirst then setImages g (setWeather w s)
            else setWeather w (setImages g s)
  addMessage (Msg.ai ("Fetched weather and images for " ++ s.city)) s'

/-- A concrete environment (fixed random draws and clock), used for
concrete runs. -/
def env0 : Env where
  baseTemp := 20
  tempDelta := fun _ => 0
  condPick := fun _ => 0
  humidity := fun _ => 50
  windSpeed := fun _ => 10
  dateStr := fun _ => "2026-10-12"
  dayName := fun _ => "Sunday"
  timestamp := "2026-10-12T00:00:00"

/-- Boolean check that a character list neither starts nor ends with
Python whitespace. -/
def noEdgeWs (l : List Char) : Bool :=
  (match l.head? with | none => true | some c => !pyWs c) &&
  (match l.getLast? with | none => true | some c => !pyWs c)

/- ------------------------------------------------------------------ -/
/- Helper lemmas -/
/- ------------------------------------------------------------------ -/

lemma len_replaceDelAux_le (ph : Char) (pt l : List Char) (k : Nat) :
    (replaceDelAux ph pt k l).length ≤ l.length := by
  induction l generalizing k with
  | nil => cases k <;> simp [replaceDelAux]
  | cons c cs ih =>
    cases k with
    | zero =>
      cases h : isPrefixList (ph :: pt) (c :: cs) with
      | false =>
        simp only [replaceDelAux, h, Bool.false_eq_true, if_false, List.length_cons]
        exact Nat.succ_le_succ (ih 0)
      | true =>
        simp only [replaceDelAux, h, if_true]
        exact Nat.le_trans (ih pt.length) (Nat.le_succ _)
    | succ k =>
      simp only [replaceDelAux]
      exact Nat.le_trans (ih k) (Nat.le_succ _)

lemma len_replaceDel_lt (ph : Char) (pt l : List Char)
    (h : occursPat ph pt l = true) :
    (replaceDel ph pt l).length < l.length := by
  induction l with
  | nil => simp [occursPat] at h
  | cons c cs ih =>
    cases hm : isPrefixList (ph :: pt) (c :: cs) with
    | true =>
      simp only [replaceDel, replaceDelAux, hm, if_true]
      exact Nat.lt_succ_of_le (len_replaceDelAux_le ph pt cs pt.length)
    | false =>
      have htail : occursPat ph pt cs = true := by
        simpa [occursPat, hm] using h
      simp only [replaceDel, replaceDelAux, hm, Bool.false_eq_true, if_false,
        List.length_cons]
      exact Nat.succ_lt_succ (ih htail)

lemma replaceDel_of_not_occurs (ph : Char) (pt l : List Char)
    (h : occursPat ph pt l = false) :
    replaceDel ph pt l = l := by
  induction l with
  | nil => rfl
  | cons c cs ih =>
    rw [occursPat, Bool.or_eq_false_iff] at h
    have := ih h.2
    simp only [replaceDel, replaceDelAux, h.1, Bool.false_eq_true, if_false]
    rw [replaceDel] at this
    rw [this]

lemma len_pyStrip_le (l : List Char) : (pyStripList l).length ≤ l.length := by
  calc (pyStripList l).length
      = ((l.dropWhile pyWs).reverse.dropWhile pyWs).length := by
        simp [pyStripList]
    _ ≤ (l.dropWhile pyWs).reverse.length := (List.dropWhile_sublist _).length_le
    _ = (l.dropWhile pyWs).length := by simp
    _ ≤ l.length := (List.dropWhile_sublist _).length_le

lemma stripPhrases_len_lt (m : List Char) (h : occursAnyPhrase m = true) :
    (stripPhrases m).length < m.length := by
  by_cases h1 : occursPat 'T' (("ell me about").data) m = true
  · have hlt := len_replaceDel_lt _ _ _ h1
    calc (stripPhrases m).length
        ≤ (replaceDel 'W' (("hat about").data)
            (replaceDel 't' (("ell me about").data)
              (replaceDel 'T' (("ell me about").data) m))).length :=
          len_replaceDelAux_le _ _ _ 0
      _ ≤ (replaceDel 't' (("ell me about").data)
            (replaceDel 'T' (("ell me about").data) m)).length :=
          len_replaceDelAux_le _ _ _ 0
      _ ≤ (replaceDel 'T' (("ell me about").data) m).length :=
          len_replaceDelAux_le _ _ _ 0
      _ < m.length := hlt
  · have e1 : replaceDel 'T' (("ell me about").data) m = m :=
      replaceDel_of_not_occurs _ _ _ (by simpa using h1)
    by_cases h2 : occursPat 't' (("ell me about").data) m = true
    · have hlt := len_replaceDel_lt _ _ _ h2
      calc (stripPhrases m).length
          ≤ (replaceDel 'W' (("hat about").data)
              (replaceDel 't' (("ell me about").data)
                (replaceDel 'T' (("ell me about").data) m))).length :=
            len_replaceDelAux_le _ _ _ 0
        _ ≤ (replaceDel 't' (("ell me about").data)
              (replaceDel 'T' (("ell me about").data) m)).length :=
            len_replaceDelAux_le _ _ _ 0
        _ = (replaceDel 't' (("ell me about").data) m).length := by rw [e1]
        _ < m.length := hlt
    · have e2 : replaceDel 't' (("ell me about").data) m = m :=
        replaceDel_of_not_occurs _ _ _ (by simpa using h2)
      by_cases h3 : occursPat 'W' (("hat about").data) m = true
      · have hlt := len_replaceDel_lt _ _ _ h3
        calc (stripPhrases m).length
            ≤ (replaceDel 'W' (("hat about").data)
                (replaceDel 't' (("ell me about").data)
                  (replaceDel 'T' (("ell me about").data) m))).length :=
              len_replaceDelAux_le _ _ _ 0
          _ = (replaceDel 'W' (("hat about").data) m).length := by rw [e1, e2]
          _ < m.length := hlt
      · have e3 : replaceDel 'W' (("hat about").data) m = m :=
          replaceDel_of_not_occurs _ _ _ (by simpa using h3)
        by_cases h4 : occursPat 'w' (("hat about").data) m = true
        · have hlt := len_replaceDel_lt _ _ _ h4
          calc (stripPhrases m).length
              = (replaceDel 'w' (("hat about").data) m).length := by
                rw [stripPhrases, e1, e2, e3]
            _ < m.length := hlt
        · exfalso
          rw [occursAnyPhrase] at h
          simp only [Bool.or_eq_true] at h
          rcases h with ((ha | hb) | hc) | hd
          · exact h1 ha
          · exact h2 hb
          · exact h3 hc
          · exact h4 hd

lemma head_dropWhile_false (p : Char → Bool) (l : List Char) (c : Char)
    (hc : (l.dropWhile p).head? = some c) : p c = false := by
  induction l with
  | nil => simp [List.dropWhile] at hc
  | cons a l ih =>
    cases h : p a with
    | true => exact ih (by simpa [List.dropWhile_cons, h] using hc)
    | false =>
      rw [List.dropWhile_cons, if_neg (by simp [h])] at hc
      simp only [List.head?_cons, Option.some.injEq] at hc
      rw [← hc]
      exact h

lemma getLast_dropWhile_eq (p : Char → Bool) (l : List Char)
    (hne : l.dropWhile p ≠ []) :
    (l.dropWhile p).getLast? = l.getLast? := by
  induction l with
  | nil => simp [List.dropWhile] at hne
  | cons a l ih =>
    cases h : p a with
    | true =>
      rw [List.dropWhile_cons, if_pos (by simp [h])] at hne ⊢
      cases l with
      | nil => simp [List.dropWhile] at hne
      | cons b l' =>
        rw [List.getLast?_cons_cons]
        exact ih hne
    | false =>
      rw [List.dropWhile_cons, if_neg (by simp [h])]

lemma noEdgeWs_pyStrip (l : List Char) : noEdgeWs (pyStripList l) = true := by
  have hstrip : pyStripList l
      = ((l.dropWhile pyWs).reverse.dropWhile pyWs).reverse := rfl
  cases hz : (l.dropWhile pyWs).reverse.dropWhile pyWs with
  | nil => rw [hstrip, hz]; rfl
  | cons c z' =>
    have hc : pyWs c = false :=
      head_dropWhile_false pyWs (l.dropWhile pyWs).reverse c (by rw [hz]; rfl)
    have hlast : (pyStripList l).getLast? = some c := by
      rw [hstrip, hz, List.getLast?_reverse]
      rfl
    have hzne : (l.dropWhile pyWs).reverse.dropWhile pyWs ≠ [] := by
      rw [hz]; simp
    have hdne : l.dropWhile pyWs ≠ [] := by
      intro hd
      rw [hd] at hz
      simp [List.dropWhile] at hz
    obtain ⟨e, d', hd⟩ : ∃ e d', l.dropWhile pyWs = e :: d' := by
      cases hdd : l.dropWhile pyWs with
      | nil => exact absurd hdd hdne
      | cons e d' => exact ⟨e, d', rfl⟩
    have he : pyWs e = false :=
      head_dropWhile_false pyWs l e (by rw [hd]; rfl)
    have hhead : (pyStripList l).head? = some e := by
      rw [hstrip, List.head?_reverse,
        getLast_dropWhile_eq pyWs (l.dropWhile pyWs).reverse hzne,
        List.getLast?_reverse, hd]
      rfl
    rw [noEdgeWs, hhead, hlast]
    simp [hc, he]

lemma lookup_isSome_eq_keysContain (k : String) :
    ∀ l : List (String × CityRecord),
      (lookupRecord k l).isSome = keysContain k l := by
  intro l
  induction l with
  | nil => rfl
  | cons p rest ih =>
    obtain ⟨k', v⟩ := p
    cases h : k' == k with
    | true => simp [lookupRecord, keysContain, h]
    | false => simp [lookupRecord, keysContain, h, ih]

lemma cityDb_isSome_eq (k : String) :
    (cityDbSearch k).isSome = cityDbHas k :=
  lookup_isSome_eq_keysContain (normKey k) cityRecords

lemma stage2_route_of_has (s : AgentState)
    (h : cityDbHas ((stage1 s).city) = true) :
    route_based_on_check (stage2 s) = "database" := by
  simp [stage2, applyUpdate, check_database_node, h, mergeOpt,
    route_based_on_check]

lemma stage2_route_of_not_has (s : AgentState)
    (h : cityDbHas ((stage1 s).city) = false) :
    route_based_on_check (stage2 s) = "web" := by
  simp [stage2, applyUpdate, check_database_node, h, mergeOpt,
    route_based_on_check]

lemma string_append_ne_empty (a b : String) (ha : a.data ≠ []) :
    a ++ b ≠ ("") := by
  intro h
  have : (a ++ b).data = [] := by rw [h]
  rw [String.data_append] at this
  exact ha (List.append_eq_nil.mp this).1

lemma formatDbSummary_ne_empty (info : CityRecord) :
    formatDbSummary info ≠ ("") := by
  rw [formatDbSummary]
  apply string_append_ne_empty
  rw [String.data_append]
  simp only [ne_eq, List.append_eq_nil, not_and]
  intro h
  simp [String.data_append] at h

lemma check_node_city_none (s : AgentState) :
    (check_database_node s).city = none := by
  rw [check_database_node]
  split <;> rfl

lemma get_node_city_none (s : AgentState) :
    (get_from_database_node s).city = none := by
  rw [get_from_database_node]
  cases cityDbSearch s.city <;> rfl

lemma applyUpdate_city_none (s : AgentState) (u : StateUpdate)
    (h : u.city = none) : (applyUpdate s u).city = s.city := by
  show (match u.city with | some c => c | none => s.city) = s.city
  rw [h]

lemma stage2_city (s : AgentState) : (stage2 s).city = (stage1 s).city := by
  rw [stage2]
  exact applyUpdate_city_none _ _ (check_node_city_none _)

lemma stage3_summary_shape (s : AgentState) :
    ∃ r : String, (stage3 s).city_summary = some r ∧ r ≠ ("") := by
  by_cases hcc : cityDbHas ((stage1 s).city) = true
  · have hr := stage2_route_of_has s hcc
    obtain ⟨info, hinfo⟩ : ∃ info, cityDbSearch ((stage2 s).city) = some info := by
      rw [stage2_city]
      exact Option.isSome_iff_exists.mp (by rw [cityDb_isSome_eq]; exact hcc)
    refine ⟨formatDbSummary info, ?_, formatDbSummary_ne_empty info⟩
    rw [stage3, if_pos hr]
    simp [applyUpdate, get_from_database_node, hinfo, mergeOpt]
  · have hb : cityDbHas ((stage1 s).city) = false := by simpa using hcc
    have hr := stage2_route_of_not_has s hb
    have hne : ¬ (route_based_on_check (stage2 s) = "database") := by
      rw [hr]
      decide
    refine ⟨"## " ++ (stage2 s).city ++ "\n\n" ++ mock_web_search ((stage2 s).city)
      ++ "\n\n*Information retrieved from web search*\n", ?_, ?_⟩
    · rw [stage3, if_neg hne]
      simp [applyUpdate, web_search_node, mergeOpt]
    · apply string_append_ne_empty
      rw [String.data_append, String.data_append]
      simp only [ne_eq, List.append_eq_nil, not_and]
      intro h
      simp [String.data_append] at h

lemma stage3_summary_isSome (s : AgentState) :
    ((stage3 s).city_summary).isSome = true := by
  obtain ⟨r, hr, _⟩ := stage3_summary_shape s
  rw [hr]
  rfl

lemma stage3_city (s : AgentState) : (stage3 s).city = (stage1 s).city := by
  rw [stage3]
  split
  · rw [applyUpdate_city_none _ _ (get_node_city_none _)]
    exact stage2_city s
  · rw [applyUpdate_city_none _ _ rfl]
    exact stage2_city s

lemma stage4_summary_eq (env : Env) (s0 : AgentState) :
    (stage4 env s0).city_summary = (stage3 s0).city_summary := rfl

lemma stage4_weather_eq (env : Env) (s0 : AgentState) :
    (stage4 env s0).weather_forecast
      = some (fetch_weather_async env ((stage3 s0).city)) := rfl

lemma stage4_images_eq (env : Env) (s0 : AgentState) :
    (stage4 env s0).image_urls = some (fetch_images_async ((stage3 s0).city)) := rfl

lemma stage4_city_eq (env : Env) (s0 : AgentState) :
    (stage4 env s0).city = (stage3 s0).city := rfl

/- ------------------------------------------------------------------ -/
/- Claim theorems -/
/- ------------------------------------------------------------------ -/

set_option maxHeartbeats 2000000

/-- Claim C1, counterexample.  The claim says a populated `error` halts the
executor and that an empty user text ends with `error` set and summary,
forecast and gallery absent.  In the code an empty user text wraps into a
non-empty message list, so extraction succeeds with the empty subject and
the run completes through the web branch with no error at all; and even
when `error` is populated (empty `messages` list), the later nodes still
run and populate the summary. -/
theorem error_does_not_halt_run :
    (runGraph env0 (initialState (""))).error = none
  ∧ ((runGraph env0 (initialState (""))).city_summary).isSome = true
  ∧ ((runGraph env0 (initialState (""))).weather_forecast).isSome = true
  ∧ ((runGraph env0 (initialState (""))).image_urls).isSome = true
  ∧ (runGraph env0 { initialState ("") with messages := [] }).error
      = some ("No message provided")
  ∧ ((runGraph env0 { initialState ("") with messages := [] }).city_summary).isSome
      = true :=
  ⟨rfl, rfl, rfl, rfl, rfl, rfl⟩

/-- Claim C1, amended.  The executor never inspects `error`: from any
state every node along the fixed topology runs, so the fan-out stage and
a summary-producing branch node always populate their fields; for an
empty user text no error is set, the subject is the empty string, the
route is EXTERNAL (`"web"`), and the run completes. -/
theorem executor_runs_all_nodes : ∀ (env : Env) (s : AgentState),
    ((runGraph env s).weather_forecast).isSome = true
  ∧ ((runGraph env s).image_urls).isSome = true
  ∧ ((runGraph env s).city_summary).isSome = true
  ∧ (runGraph env (initialState (""))).error = none
  ∧ (runGraph env (initialState (""))).route = some ("web") := by
  intro env s
  exact ⟨rfl, rfl, stage3_summary_isSome s, rfl, rfl⟩

/-- Claim C2 (confirmed).  The route-decision node sets the route to
LOOKUP (`"database"`) exactly when the Lookup Store has the subject and
to EXTERNAL (`"web"`) otherwise, and the router function reads only the
`route` field of the state, returning EXTERNAL when the route is unset. -/
theorem route_decision_spec : ∀ (s s' : AgentState),
    ((check_database_node s).route = some ("database") ↔ cityDbHas s.city = true)
  ∧ ((check_database_node s).route = some ("web") ↔ cityDbHas s.city = false)
  ∧ route_based_on_check { s with route := s'.route } = s'.route.getD ("web") := by
  intro s s'
  refine ⟨?_, ?_, rfl⟩ <;>
    cases h : cityDbHas s.city <;>
      simp [check_database_node, h]

/-- Claim C3, counterexample.  The claim says the conversational prefixes
are stripped case-insensitively; the code only removes the two exact
spellings of each phrase, so an all-caps prefix survives extraction. -/
theorem extract_not_case_insensitive :
    extractStr ("TELL ME ABOUT Paris") = "TELL ME ABOUT Paris"
  ∧ extractStr ("TELL ME ABOUT Paris") ≠ "Paris" := by
  exact ⟨by decide, by decide⟩

/-- Claim C3, amended.  The extraction removes the exact spellings
"Tell me about", "tell me about", "What about" and "what about"
(wherever they occur), and the extracted subject never has leading or
trailing whitespace. -/
theorem extract_strips_exact_spellings : ∀ t : String,
    noEdgeWs ((extractStr t).data) = true
  ∧ extractStr ("tell me about Tokyo") = "Tokyo"
  ∧ extractStr ("Tell me about   Paris ") = "Paris"
  ∧ extractStr ("What about Berlin") = "Berlin"
  ∧ extractStr ("what about rome") = "rome" := by
  intro t
  exact ⟨noEdgeWs_pyStrip _, by decide, by decide, by decide, by decide⟩

/-- Claim C4 (confirmed).  For every key the Lookup Store's membership
test and lookup agree — `has_city k` is true exactly when `search k`
returns a record — keys being normalised by lowercasing and trimming;
`search` is total and returns `none` (rather than throwing) on a missing
key, as the concrete miss shows. -/
theorem has_find_agree : ∀ k : String,
    (cityDbHas k = true ↔ (cityDbSearch k).isSome = true)
  ∧ cityDbHas ("  PaRiS ") = true
  ∧ cityDbSearch ("Atlantis") = none := by
  intro k
  refine ⟨?_, by decide, by decide⟩
  rw [cityDbHas, cityDbSearch, lookup_isSome_eq_keysContain]

/-- Claim C5 (confirmed).  For the input "Paris" (present in the Lookup
Store) a complete run produces route LOOKUP (`"database"`), a summary
containing both "Paris" and "France", a forecast with exactly 5 entries,
a gallery with exactly 5 locators, and no error — for every environment
(random draws, clock). -/
lemma paris_route (env : Env) :
    (runGraph env (initialState ("Paris"))).route = some ("database") := rfl

lemma paris_summary_has_paris (env : Env) :
    containsSub (("Paris").data)
      (((runGraph env (initialState ("Paris"))).city_summary.getD ("")).data) = true := rfl

lemma paris_summary_has_france (env : Env) :
    containsSub (("France").data)
      (((runGraph env (initialState ("Paris"))).city_summary.getD ("")).data) = true := rfl

lemma paris_forecast_len (env : Env) :
    ((runGraph env (initialState ("Paris"))).weather_forecast.getD []).length = 5 := by
  show (mock_weather_api env ((stage3 (initialState ("Paris"))).city) 5).length = 5
  simp [mock_weather_api]

lemma paris_gallery_len (env : Env) :
    ((runGraph env (initialState ("Paris"))).image_urls.getD []).length = 5 := by
  show (mock_image_api ((stage3 (initialState ("Paris"))).city) 5).length = 5
  simp [mock_image_api]

lemma paris_no_error (env : Env) :
    (runGraph env (initialState ("Paris"))).error = none := rfl

theorem paris_end_to_end : ∀ env : Env,
    (runGraph env (initialState ("Paris"))).route = some ("database")
  ∧ containsSub (("Paris").data)
      (((runGraph env (initialState ("Paris"))).city_summary.getD ("")).data) = true
  ∧ containsSub (("France").data)
      (((runGraph env (initialState ("Paris"))).city_summary.getD ("")).data) = true
  ∧ ((runGraph env (initialState ("Paris"))).weather_forecast.getD []).length = 5
  ∧ ((runGraph env (initialState ("Paris"))).image_urls.getD []).length = 5
  ∧ (runGraph env (initialState ("Paris"))).error = none := by
  intro env
  exact ⟨paris_route env, paris_summary_has_paris env, paris_summary_has_france env,
    paris_forecast_len env, paris_gallery_len env, paris_no_error env⟩

/-- Claim C6 (confirmed).  The caller interface is a total function
returning a result object for every input text and thread identifier,
and whenever the returned object carries no error its primary fields are
populated: the summary is a non-empty string, forecast and gallery have
their 5 entries, and the subject field carries the extracted subject. -/
theorem caller_result_populated : ∀ (env : Env) (input threadId : String),
    (process env input threadId).error = none →
    ((process env input threadId).city_summary ≠ ("")
     ∧ (process env input threadId).weather_forecast.length = 5
     ∧ (process env input threadId).image_urls.length = 5
     ∧ (process env input threadId).city = (stage1 (initialState input)).city) := by
  intro env input threadId _
  obtain ⟨r, hr, hne⟩ := stage3_summary_shape (initialState input)
  refine ⟨?_, ?_, ?_, ?_⟩
  · simp only [process, structuredOutput]
    rw [stage4_summary_eq, hr]
    simpa using hne
  · simp only [process, structuredOutput]
    rw [stage4_weather_eq]
    simp [fetch_weather_async, mock_weather_api]
  · simp only [process, structuredOutput]
    rw [stage4_images_eq]
    simp [fetch_images_async, mock_image_api]
  · simp only [process, structuredOutput]
    rw [stage4_city_eq]
    exact stage3_city (initialState input)

/-- Claim C6, witness: the populated-field guarantees instantiated on the
concrete run for "Paris". -/
theorem caller_result_populated_witness :
    (process env0 ("Paris") ("default")).error = none
  ∧ ((process env0 ("Paris") ("default")).city_summary ≠ ("")
     ∧ (process env0 ("Paris") ("default")).weather_forecast.length = 5
     ∧ (process env0 ("Paris") ("default")).image_urls.length = 5
     ∧ (process env0 ("Paris") ("default")).city
         = (stage1 (initialState ("Paris"))).city) :=
  ⟨rfl, caller_result_populated env0 ("Paris") ("default") rfl⟩

/-- Claim C7 (confirmed).  History is append-only: for every workflow
node and every state, the history before the node runs is a prefix of
the history after the node's partial update is merged. -/
theorem history_append_only : ∀ (env : Env) (n : NodeId) (s : AgentState),
    s.messages <+: (applyNode env n s).messages :=
  fun env n s => ⟨(nodeUpdate env n s).messages, rfl⟩

/-- Claim C8 (confirmed).  When the route-decision node selected LOOKUP
(`"database"`), the lookup-resolution node's not-found branch is
unreachable: on the state produced by the decision node it sets the
summary and never sets the error, because the read-only store's
membership test agrees with its lookup. -/
theorem lookup_branch_no_error : ∀ s : AgentState,
    (check_database_node s).route = some ("database") →
    ((get_from_database_node (applyUpdate s (check_database_node s))).error = none
     ∧ ((get_from_database_node
          (applyUpdate s (check_database_node s))).city_summary).isSome = true) := by
  intro s h
  have hcc : cityDbHas s.city = true := by
    cases hb : cityDbHas s.city with
    | true => rfl
    | false =>
      have hw : (check_database_node s).route = some ("web") := by
        simp [check_database_node, hb]
      rw [hw] at h
      exact absurd (Option.some.inj h) (by decide)
  have hcity : (applyUpdate s (check_database_node s)).city = s.city :=
    applyUpdate_city_none _ _ (check_node_city_none _)
  obtain ⟨info, hinfo⟩ : ∃ info, cityDbSearch s.city = some info :=
    Option.isSome_iff_exists.mp (by rw [cityDb_isSome_eq]; exact hcc)
  constructor
  · rw [get_from_database_node, hcity, hinfo]
  · rw [get_from_database_node, hcity, hinfo]
    rfl

/-- Claim C8, witness: the guarantee instantiated on a state whose
subject is "Paris". -/
theorem lookup_branch_no_error_witness :
    (check_database_node { initialState ("x") with city := "Paris" }).route
      = some ("database")
  ∧ ((get_from_database_node
        (applyUpdate { initialState ("x") with city := "Paris" }
          (check_database_node { initialState ("x") with city := "Paris" }))).error = none
     ∧ ((get_from_database_node
          (applyUpdate { initialState ("x") with city := "Paris" }
            (check_database_node
              { initialState ("x") with city := "Paris" }))).city_summary).isSome
        = true) :=
  ⟨by decide, lookup_branch_no_error _ (by decide)⟩

/-- Claim C9 (confirmed).  The fan-out stage's two collaborator calls are
independent: writing their two results into the state in either
completion order, with the single history entry appended after the join,
yields exactly the merged partial state update the node produces. -/
theorem fanout_order_independent :
    ∀ (env : Env) (s : AgentState) (weatherFirst : Bool),
      fanOutEither env s weatherFirst = applyUpdate s (parallel_fetch_node env s) := by
  intro env s b
  cases b <;> rfl

/-- Claim C10 (confirmed).  The extraction removes the recognised phrase
spellings anywhere in the user text, not only as a leading prefix: when
such a spelling occurs in the trimmed text, the extracted subject is
strictly shorter than the verbatim trimmed text, so a subject containing
such a phrase is altered. -/
theorem extract_deletes_interior_phrases : ∀ t : String,
    occursAnyPhrase ((pyStrip t).data) = true →
    ((extractStr t).data).length < ((pyStrip t).data).length := by
  intro t h
  show (pyStripList (stripPhrases (pyStripList t.data))).length
      < (pyStripList t.data).length
  exact lt_of_le_of_lt (len_pyStrip_le _) (stripPhrases_len_lt _ h)

/-- Claim C10, witness: a phrase occurrence in the middle of the text is
deleted, shortening the subject. -/
theorem extract_deletes_interior_phrases_witness :
    occursAnyPhrase ((pyStrip ("Springfield tell me about Falls")).data) = true
  ∧ ((extractStr ("Springfield tell me about Falls")).data).length
      < ((pyStrip ("Springfield tell me about Falls")).data).length :=
  ⟨by decide, extract_deletes_interior_phrases ("Springfield tell me about Falls") (by decide)⟩

end TravelAssistant
